import Mathlib

/-!
Formal model of the pet_care backend decision engine: the FAQ semantic-search
fallback chain and confidence tiering (backend/services/faq_service.py and
backend/services/faq_service_optimized.py), the cascaded dog-image validation
(backend/services/dog_detector.py and the upload flow in backend/main.py), and
the repetition-aware response composer (backend/services/response_messages.py).

Similarity and confidence scores are modelled as rationals.  Python strings are
modelled as Lean strings, with structurally recursive helpers standing in for
the Python primitives (`in`, `.lower()`, `.split()`, `.strip()`) so that every
definition evaluates on concrete inputs.  External effects (the OpenAI client,
the database, the torch models, the pickle file) appear as explicit inputs:
either plain values, or `Except` values when the corresponding Python call can
raise, or an oracle function when it is a black box (the embedding provider,
`np.linalg.norm`).
-/

/-! ### String primitives (models of Python `in`, `.lower()`, `.split()`, `.strip()`) -/

/-- Model of Python list/str prefix test, structurally recursive so that the
kernel can evaluate it. -/
def startsWithL : List Char → List Char → Bool
  | [], _ => true
  | _ :: _, [] => false
  | a :: as, b :: bs => a == b && startsWithL as bs

/-- `occursInL needle hay`: Python `needle in hay` on strings as char lists. -/
def occursInL (needle : List Char) : List Char → Bool
  | [] => startsWithL needle []
  | b :: bs => startsWithL needle (b :: bs) || occursInL needle bs

/-- Python substring test `needle in hay`. -/
def occursIn (needle hay : String) : Bool := occursInL needle.data hay.data

/-- ASCII lowering of one character (the generated labels and queries the code
compares are ASCII, so this models Python `str.lower`). -/
def lowerChar (c : Char) : Char :=
  if 65 ≤ c.toNat ∧ c.toNat ≤ 90 then Char.ofNat (c.toNat + 32) else c

/-- Model of Python `str.lower()`. -/
def lowerStr (s : String) : String := ⟨s.data.map lowerChar⟩

/-- Split a character list at every occurrence of `sep` (Python `str.split(sep)`,
which keeps empty fields). -/
def splitCharL (sep : Char) : List Char → List (List Char)
  | [] => [[]]
  | c :: cs =>
    let r := splitCharL sep cs
    if c == sep then [] :: r
    else match r with
      | [] => [[c]]
      | w :: ws => (c :: w) :: ws

/-- Characters Python `str.strip()` / no-argument `str.split()` treat as blank. -/
def isSpaceChar (c : Char) : Bool := c == ' ' || c == '\t' || c == '\n' || c == '\r'

/-- Model of Python `str.strip()`. -/
def stripStr (s : String) : String :=
  ⟨((s.data.dropWhile isSpaceChar).reverse.dropWhile isSpaceChar).reverse⟩

/-- Model of Python no-argument `str.split()`: split on blanks, drop empties. -/
def splitWords (s : String) : List String :=
  ((splitCharL ' ' s.data).map (fun l => String.mk l)).filter (fun w => w ≠ "")

/-- Split on a single-character separator, keeping empty fields
(Python `str.split('\n')`). -/
def splitOnChar (sep : Char) (s : String) : List String :=
  (splitCharL sep s.data).map (fun l => String.mk l)

/-- Python `'\n'.join(lines)`. -/
def joinLines : List String → String
  | [] => ""
  | [l] => l
  | l :: ls => l ++ "\n" ++ joinLines ls

/-- Python `s[:n]` on strings: take the first `n` characters. -/
def takeStr (s : String) (n : Nat) : String := ⟨s.data.take n⟩

/-- Python `len(s)` on strings. -/
def lenStr (s : String) : Nat := s.data.length

/-! ### Confidence tiers (faq_service.py lines 24-27, faq_service_optimized.py
lines 23-26: thresholds HIGH 0.85 / MEDIUM 0.70 / LOW 0.55) -/

def HIGH_CONFIDENCE_THRESHOLD : ℚ := 85/100

def MEDIUM_CONFIDENCE_THRESHOLD : ℚ := 70/100

def LOW_CONFIDENCE_THRESHOLD : ℚ := 55/100

/-- The four confidence tiers, ordered `none < low < medium < high`. -/
inductive Confidence
  | nothing
  | low
  | medium
  | high
deriving DecidableEq, Repr

/-- Numeric rank of a tier under the ordering `none < low < medium < high`. -/
def Confidence.rank : Confidence → Nat
  | .nothing => 0
  | .low => 1
  | .medium => 2
  | .high => 3

/-- The confidence string each tier is reported as in the code. -/
def Confidence.name : Confidence → String
  | .nothing => "none"
  | .low => "low"
  | .medium => "medium"
  | .high => "high"

/-- The tier-classification shape shared by `get_faq_answer` (faq_service.py
lines 254-268) and `get_faq_answer_optimized` (faq_service_optimized.py lines
396-407): compare the score against the three fixed cutoffs in order. -/
def classifyConfidence (s : ℚ) : Confidence :=
  if s ≥ HIGH_CONFIDENCE_THRESHOLD then .high
  else if s ≥ MEDIUM_CONFIDENCE_THRESHOLD then .medium
  else if s ≥ LOW_CONFIDENCE_THRESHOLD then .low
  else .nothing

/-! ### Knowledge-base entries and cosine similarity -/

/-- A row of the `faqs` table / an entry of the FAQ JSON file. -/
structure FAQEntry where
  id : Nat
  question : String
  answer : String
  category : Option String
deriving DecidableEq, Repr

/-- Dot product of two embedding vectors (`np.dot`). -/
def dotL (a b : List ℚ) : ℚ := (List.zipWith (fun x y => x * y) a b).sum

/-- `cosine_similarity` from faq_service.py lines 166-175.  `norm` is the
`np.linalg.norm` primitive, passed in as an oracle; the code returns `0.0`
whenever either norm is zero, and only otherwise divides. -/
def cosine_similarity (norm : List ℚ → ℚ) (a b : List ℚ) : ℚ :=
  let dot_product := dotL a b
  let norm_a := norm a
  let norm_b := norm b
  if norm_a = 0 ∨ norm_b = 0 then 0
  else dot_product / (norm_a * norm_b)

/-! ### Stable descending sort by score (Python `list.sort(key=..., reverse=True)`) -/

/-- Insert one scored item into a descending list, after all items of greater or
equal score, so the overall sort is stable like Python's. -/
def insertScoreDesc {α : Type} (x : α × ℚ) : List (α × ℚ) → List (α × ℚ)
  | [] => [x]
  | y :: ys => if x.2 ≤ y.2 then y :: insertScoreDesc x ys else x :: y :: ys

/-- Stable sort of scored items by descending score. -/
def sortScoreDesc {α : Type} : List (α × ℚ) → List (α × ℚ)
  | [] => []
  | x :: xs => insertScoreDesc x (sortScoreDesc xs)

/-! ### Keyword fallback matcher (faq_service_optimized.py lines 203-319) -/

/-- The stop-word set of `search_faqs_keyword_fallback` (line 226). -/
def stop_words : List String :=
  ["the", "is", "are", "a", "an", "and", "or", "but", "in", "on", "at", "to",
   "for", "of", "with", "by", "what", "should", "can", "my", "i", "me", "how",
   "why", "when", "where", "do", "does", "did", "will", "would", "could",
   "may", "might"]

/-- Line 229: meaningful words of the lowercased stripped query — longer than
two characters and not stop words, each stripped. -/
def meaningful_words (query_lower : String) : List String :=
  ((splitWords query_lower).filter
    (fun w => decide (2 < lenStr w) && ! stop_words.contains w)).map stripStr

/-- The ANSWER-field branch of `search_faqs_keyword_fallback` (lines 286-313):
candidates matching some keyword in the answer, limited to `2 * top_k` rows,
scored with the lower cap 0.75 and no boost, accepted only when the best
score is at least 0.3. -/
def keyword_answer_branch (faqs : List FAQEntry) (words : List String)
    (top_k : Nat) : List (FAQEntry × ℚ) :=
  let conditionWords := words.take 8
  let faqs_answer_match :=
    (faqs.filter (fun f => conditionWords.any
      (fun w => occursIn w (lowerStr f.answer)))).take (top_k * 2)
  let results := faqs_answer_match.map (fun f =>
    let question_lower := lowerStr f.question
    let answer_lower := lowerStr f.answer
    let question_matches := (words.filter (fun w => occursIn w question_lower)).length
    let answer_matches := (words.filter (fun w => occursIn w answer_lower)).length
    let total_score := question_matches * 2 + answer_matches
    let similarity := min ((total_score : ℚ) / ((max (words.length * 2) 1 : ℕ) : ℚ)) (75/100)
    (f, similarity))
  match sortScoreDesc results with
  | [] => []
  | (b, s) :: rest => if s ≥ 3/10 then ((b, s) :: rest).take top_k else []

/-- `search_faqs_keyword_fallback` (faq_service_optimized.py lines 203-319).
The database is the list of FAQ rows; `ilike '%w%'` is case-insensitive
containment.  With no meaningful keywords the query falls back to a direct
substring match on the question scored 0.7 (lines 231-241); otherwise the
QUESTION-field branch (lines 243-284) scores matches as
`min((2*question_matches + answer_matches) / max(2*len(words), 1), 0.85)`
with a 0.1 boost (recapped at 0.85) when at least two question words match,
and returns the top results only when the best score is at least 0.3,
falling through to the ANSWER-field branch otherwise. -/
def search_faqs_keyword_fallback (faqs : List FAQEntry) (query : String)
    (top_k : Nat := 3) : List (FAQEntry × ℚ) :=
  let query_lower := stripStr (lowerStr query)
  let words := meaningful_words query_lower
  if words = [] then
    ((faqs.filter (fun f => occursIn query_lower (lowerStr f.question))).take top_k).map
      (fun f => (f, (7/10 : ℚ)))
  else
    let conditionWords := words.take 8
    let faqs_question_match :=
      faqs.filter (fun f => conditionWords.any (fun w => occursIn w (lowerStr f.question)))
    let results := faqs_question_match.map (fun f =>
      let question_lower := lowerStr f.question
      let answer_lower := lowerStr f.answer
      let question_matches := (words.filter (fun w => occursIn w question_lower)).length
      let answer_matches := (words.filter (fun w => occursIn w answer_lower)).length
      let total_score := question_matches * 2 + answer_matches
      let similarity := min ((total_score : ℚ) / ((max (words.length * 2) 1 : ℕ) : ℚ)) (85/100)
      let similarity :=
        if question_matches ≥ 2 then min (similarity + 1/10) (85/100) else similarity
      (f, similarity))
    match sortScoreDesc results with
    | [] => keyword_answer_branch faqs words top_k
    | (b, s) :: rest =>
      if s ≥ 3/10 then ((b, s) :: rest).take top_k
      else keyword_answer_branch faqs words top_k

/-! ### Vector search and its in-memory fallback (faq_service_optimized.py) -/

/-- `search_faqs_fallback` (faq_service_optimized.py lines 122-177): in-memory
cosine similarity over the FAQ rows that carry an embedding.  `dbRows` is the
outcome of the ORM query (`.error` when it raises, in which case the function
returns the empty list); rows whose stored embedding is not a list are
skipped.  The zero-norm guard of lines 156-159 is inlined exactly as in the
source. -/
def search_faqs_fallback (norm : List ℚ → ℚ)
    (dbRows : Except String (List (FAQEntry × Option (List ℚ))))
    (query_embedding : List ℚ) (top_k : Nat) (min_similarity : ℚ) :
    List (FAQEntry × ℚ) :=
  match dbRows with
  | .error _ => []
  | .ok faqs =>
    if faqs = [] then []
    else
      let similarities := faqs.filterMap (fun fe =>
        match fe.2 with
        | none => none
        | some faq_embedding =>
          let dot_product := dotL query_embedding faq_embedding
          let norm_query := norm query_embedding
          let norm_faq := norm faq_embedding
          let similarity :=
            if norm_query = 0 ∨ norm_faq = 0 then 0
            else dot_product / (norm_query * norm_faq)
          if similarity ≥ min_similarity then some (fe.1, similarity) else none)
      (sortScoreDesc similarities).take top_k

/-- The database state seen by the optimized FAQ service: the FAQ rows, the
outcome of the pgvector similarity SQL query, and the outcome of the ORM
query backing the in-memory fallback. -/
structure FaqDb where
  faqs : List FAQEntry
  pgvectorQuery : Except String (List (FAQEntry × ℚ))
  fallbackRows : Except String (List (FAQEntry × Option (List ℚ)))

/-- `search_faqs_vector_db` (faq_service_optimized.py lines 56-119): run the
pgvector query; if it raises, silently fall back to `search_faqs_fallback`.
The return type is a plain list — no unavailability signal exists. -/
def search_faqs_vector_db (norm : List ℚ → ℚ) (db : FaqDb)
    (query_embedding : List ℚ) (top_k : Nat) (min_similarity : ℚ) :
    List (FAQEntry × ℚ) :=
  match db.pgvectorQuery with
  | .ok results => results
  | .error _ => search_faqs_fallback norm db.fallbackRows query_embedding top_k min_similarity

/-- `sanitize_faq_answer` (faq_service_optimized.py lines 180-200): keep at
most 5 lines and 500 characters (truncating to 497 plus `...`), then strip. -/
def sanitize_faq_answer (answer : String) : String :=
  if answer = "" then answer
  else
    let lines := splitOnChar '\n' answer
    let answer := if lines.length > 5 then joinLines (lines.take 5) else answer
    let answer := if lenStr answer > 500 then takeStr answer 497 ++ "..." else answer
    stripStr answer

/-- The keyword-fallback return block repeated verbatim at lines 347-354,
362-369, 377-384 and 416-422 of faq_service_optimized.py: take the best
keyword match, sanitize its answer, and report confidence "medium"
(source comment: to ensure direct return, no GPT call). -/
def keyword_fallback_return (faqs : List FAQEntry) (query : String)
    (top_k : Nat) : Option String × Option FAQEntry × String × ℚ :=
  match search_faqs_keyword_fallback faqs query top_k with
  | (best_faq, similarity) :: _ =>
    (some (sanitize_faq_answer best_faq.answer), some best_faq, "medium", similarity)
  | [] => (none, none, "none", 0)

/-- `get_faq_answer_optimized` (faq_service_optimized.py lines 322-431).
`clientAvailable` is whether the OpenAI client was constructed;
`query_embedding` is the outcome of `generate_embedding(query)` (None on
quota/network failure).  The keyword fallback runs when the client is
missing, the embedding failed, or vector search found nothing; otherwise the
best vector result is classified by the three fixed cutoffs.  (The
`"answer" not in best_faq` guard of line 390 cannot fire: every row dict is
built with an `answer` key.) -/
def get_faq_answer_optimized (norm : List ℚ → ℚ) (clientAvailable : Bool)
    (query_embedding : Option (List ℚ)) (db : FaqDb) (query : String)
    (top_k : Nat := 3) : Option String × Option FAQEntry × String × ℚ :=
  if ¬clientAvailable then keyword_fallback_return db.faqs query top_k
  else
    match query_embedding with
    | none => keyword_fallback_return db.faqs query top_k
    | some qe =>
      match search_faqs_vector_db norm db qe top_k LOW_CONFIDENCE_THRESHOLD with
      | [] => keyword_fallback_return db.faqs query top_k
      | (best_faq, similarity) :: _ =>
        let sanitized_answer := sanitize_faq_answer best_faq.answer
        if similarity ≥ HIGH_CONFIDENCE_THRESHOLD then
          (some sanitized_answer, some best_faq, "high", similarity)
        else if similarity ≥ MEDIUM_CONFIDENCE_THRESHOLD then
          (some sanitized_answer, some best_faq, "medium", similarity)
        else if similarity ≥ LOW_CONFIDENCE_THRESHOLD then
          (some sanitized_answer, some best_faq, "low", similarity)
        else (none, none, "none", similarity)

/-! ### Non-optimized FAQ search (faq_service.py lines 178-273) -/

/-- `search_faqs` (faq_service.py lines 178-225).  `loaded` is the outcome of
`load_or_generate_embeddings` (`.error` when loading raises): the FAQ list
paired with their embeddings, aligned by position. -/
def search_faqs (norm : List ℚ → ℚ) (clientAvailable : Bool)
    (loaded : Except String (List FAQEntry × Option (List (List ℚ))))
    (query_embedding : Option (List ℚ)) (top_k : Nat := 5)
    (min_similarity : ℚ := LOW_CONFIDENCE_THRESHOLD) : List (FAQEntry × ℚ) :=
  if ¬clientAvailable then []
  else
    match loaded with
    | .error _ => []
    | .ok (faqs, embeddings) =>
      match embeddings with
      | none => []
      | some embs =>
        if faqs.length = 0 then []
        else
          match query_embedding with
          | none => []
          | some qe =>
            let similarities := (faqs.zip embs).filterMap (fun fe =>
              let similarity := cosine_similarity norm qe fe.2
              if similarity ≥ min_similarity then some (fe.1, similarity) else none)
            (sortScoreDesc similarities).take top_k

/-- `get_faq_answer` (faq_service.py lines 228-273): classify the best search
result by the three fixed cutoffs; at every tier at or above LOW the stored
answer is returned as-is, with no sanitization. -/
def get_faq_answer (norm : List ℚ → ℚ) (clientAvailable : Bool)
    (loaded : Except String (List FAQEntry × Option (List (List ℚ))))
    (query_embedding : Option (List ℚ)) (top_k : Nat := 3) :
    Option String × Option FAQEntry × String × ℚ :=
  match search_faqs norm clientAvailable loaded query_embedding top_k
      LOW_CONFIDENCE_THRESHOLD with
  | [] => (none, none, "none", 0)
  | (best_faq, similarity) :: _ =>
    if similarity ≥ HIGH_CONFIDENCE_THRESHOLD then
      (some best_faq.answer, some best_faq, "high", similarity)
    else if similarity ≥ MEDIUM_CONFIDENCE_THRESHOLD then
      (some best_faq.answer, some best_faq, "medium", similarity)
    else if similarity ≥ LOW_CONFIDENCE_THRESHOLD then
      (some best_faq.answer, some best_faq, "low", similarity)
    else (none, none, "none", similarity)

/-! ### Embedding provider and cache (faq_service.py lines 78-163) -/

/-- The module-level mutable state of faq_service.py: the two in-memory caches
(lines 30-31), the pickle snapshot on disk (line 32, `None` when the file does
not exist), and a counter of calls made to the OpenAI embeddings endpoint. -/
structure EmbedState where
  faq_cache : Option (List FAQEntry)
  embeddings_cache : Option (List (List ℚ))
  cache_file : Option (List FAQEntry × List (List ℚ))
  providerCalls : Nat
deriving DecidableEq, Repr

/-- `generate_embedding` (faq_service.py lines 78-95): with no client it
returns `None` without contacting the provider; otherwise every single call
invokes `client.embeddings.create` — there is no per-text caching.  The
`provider` oracle returns `none` when the call raises (quota, network). -/
def generate_embedding (provider : String → Option (List ℚ))
    (clientAvailable : Bool) (text_input : String) (s : EmbedState) :
    Option (List ℚ) × EmbedState :=
  if ¬clientAvailable then (none, s)
  else (provider text_input, { s with providerCalls := s.providerCalls + 1 })

/-- The regeneration tail of `load_or_generate_embeddings` (faq_service.py
lines 122-163): embed every FAQ question once, keep the ones that succeeded,
and persist both caches; with no client, or no successful embedding, return
the FAQs with no embeddings. -/
def regenerate_embeddings (provider : String → Option (List ℚ))
    (clientAvailable : Bool) (jsonFaqs : List FAQEntry) (s : EmbedState) :
    (List FAQEntry × Option (List (List ℚ))) × EmbedState :=
  if ¬clientAvailable then ((jsonFaqs, none), s)
  else
    let step := jsonFaqs.foldl
      (fun (acc : List FAQEntry × List (List ℚ) × EmbedState) faq =>
        let (valid_faqs, embeddings_list, st) := acc
        let (embedding, st) := generate_embedding provider clientAvailable faq.question st
        match embedding with
        | some e => (valid_faqs ++ [faq], embeddings_list ++ [e], st)
        | none => (valid_faqs, embeddings_list, st))
      ([], [], s)
    let (valid_faqs, embeddings_list, s) := step
    if embeddings_list = [] then ((jsonFaqs, none), s)
    else
      (((valid_faqs, some embeddings_list)),
        { s with cache_file := some (valid_faqs, embeddings_list),
                 faq_cache := some valid_faqs,
                 embeddings_cache := some embeddings_list })

/-- `load_or_generate_embeddings` (faq_service.py lines 98-163).  With both
in-memory caches warm and no force flag it returns them unchanged (lines
106-107).  Otherwise it tries the pickle snapshot (lines 110-120; the loaded
values are installed in the module caches, and accepted when the FAQ list is
non-empty), and finally regenerates.  `jsonFaqs` is the content of the FAQ
JSON file. -/
def load_or_generate_embeddings (provider : String → Option (List ℚ))
    (clientAvailable : Bool) (jsonFaqs : List FAQEntry)
    (force_regenerate : Bool) (s : EmbedState) :
    (List FAQEntry × Option (List (List ℚ))) × EmbedState :=
  match s.faq_cache, s.embeddings_cache, force_regenerate with
  | some fs, some es, false => ((fs, some es), s)
  | _, _, _ =>
    match (if force_regenerate then none else s.cache_file) with
    | some (fs, es) =>
      let s := { s with faq_cache := some fs, embeddings_cache := some es }
      if fs ≠ [] then ((fs, some es), s)
      else regenerate_embeddings provider clientAvailable jsonFaqs s
    | none => regenerate_embeddings provider clientAvailable jsonFaqs s

/-! ### Dog detector (dog_detector.py) -/

/-- `DOG_KEYWORDS` (dog_detector.py lines 37-57). -/
def DOG_KEYWORDS : List String :=
  ["dog", "dogs", "puppy", "puppies", "canine", "canines",
   "retriever", "retrievers", "terrier", "terriers", "poodle", "poodles",
   "beagle", "beagles", "husky", "huskies", "pug", "pugs", "spaniel", "spaniels",
   "mastiff", "mastiffs", "shepherd", "shepherds", "setter", "setters",
   "collie", "collies", "bulldog", "bulldogs", "chihuahua", "chihuahuas",
   "malamute", "malamutes", "samoyed", "samoyeds", "greyhound", "greyhounds",
   "whippet", "whippets", "boxer", "boxers", "rottweiler", "rottweilers",
   "doberman", "dobermans", "pinscher", "pinschers", "dalmatian", "dalmatians",
   "ridgeback", "ridgebacks", "newfoundland", "newfoundlands", "pointer", "pointers",
   "labrador", "labradors", "pomeranian", "pomeranians", "papillon", "papillons",
   "akita", "akitas", "saluki", "salukis", "borzoi", "borzois", "weimaraner", "weimaraners",
   "keeshond", "keeshonds", "vizsla", "vizslas", "schipperke", "schipperkes",
   "affenpinscher", "affenpinschers", "briard", "briards", "komondor", "komondors",
   "pekinese", "pekineses", "shihtzu", "shih-tzu", "schnauzer", "schnauzers",
   "great dane", "great danes", "corgi", "corgis", "dachshund", "dachshunds",
   "hound", "hounds", "wolfhound", "wolfhounds", "springer", "springers",
   "basset", "bassets", "bloodhound", "bloodhounds", "eskimo", "eskimos",
   "shiba", "shibas", "chow", "chows", "shar-pei", "shar pei", "basenji", "basenjis",
   "mexican hairless", "hairless", "xoloitzcuintli", "xolo"]

/-- `NON_DOG_ANIMALS`, the reject list (dog_detector.py lines 60-71). -/
def NON_DOG_ANIMALS : List String :=
  ["goat", "goats", "sheep", "ram", "ewe", "lamb", "lambs",
   "cat", "cats", "kitten", "kittens", "feline", "felines",
   "cow", "cows", "bull", "bulls", "cattle", "calf", "calves",
   "horse", "horses", "pony", "ponies", "mare", "stallion",
   "pig", "pigs", "swine", "boar", "sow",
   "chicken", "chickens", "rooster", "hen",
   "duck", "ducks", "goose", "geese",
   "rabbit", "rabbits", "bunny", "bunnies",
   "hamster", "hamsters", "guinea pig", "guinea pigs",
   "bird", "birds", "parrot", "parrots"]

/-- What the coarse MobileNet detector reports for one image: the top-1
prediction (`predict_label`) and the top-10 predictions with probabilities
(`torch.topk(probs, 10)`). -/
structure ImagePreds where
  top1 : String × ℚ
  top10 : List (String × ℚ)
deriving DecidableEq, Repr

/-- The first loop of Method 2 of `is_dog_image` (dog_detector.py lines
119-134): walk the top-10 predictions in order; reject on "ram" at
probability at least 0.02, or on any reject-list match at probability at
least 0.03. -/
def top10_reject_scan : List (String × ℚ) → Option (Bool × String × ℚ × String)
  | [] => none
  | (lbl, p) :: rest =>
    let pred_label := lowerStr lbl
    if occursIn "ram" pred_label && decide (p ≥ 2/100) then
      some (false, lbl, p, "ram_in_top10")
    else if (NON_DOG_ANIMALS.any fun nd =>
        occursIn nd pred_label || occursIn pred_label nd) && decide (p ≥ 3/100) then
      some (false, lbl, p, "non_dog_in_top10")
    else top10_reject_scan rest

/-- The second loop of Method 2 of `is_dog_image` (dog_detector.py lines
136-148): track whether some top-10 prediction carries a dog keyword with
probability at least 0.15, and the highest such probability with its label. -/
def top10_dog_scan : List (String × ℚ) → Bool × ℚ × Option String → Bool × ℚ × Option String
  | [], acc => acc
  | (lbl, p) :: rest, (dog_found, dog_confidence, dog_label) =>
    if DOG_KEYWORDS.any (fun k => occursIn k (lowerStr lbl)) then
      let conf_label :=
        if p > dog_confidence then (p, some lbl) else (dog_confidence, dog_label)
      top10_dog_scan rest (dog_found || decide (p ≥ 15/100), conf_label.1, conf_label.2)
    else top10_dog_scan rest (dog_found, dog_confidence, dog_label)

/-- `is_dog_image` (dog_detector.py lines 84-156), returning
`(is_dog, top_label, confidence, detection_method)`.  The reject-list check
on the top-1 label (lines 95-98) carries no confidence floor at all; the
special "ram" check (lines 100-103) uses floor 0.1; a top-1 dog keyword needs
`conf ≥ threshold` (default 0.25); otherwise Method 2 scans the top-10
predictions.  (`dog_label.getD label` stands for Python's `dog_label`, which
is never `None` when `dog_found` holds.) -/
def is_dog_image (img : ImagePreds) (threshold : ℚ := 25/100) :
    Bool × String × ℚ × String :=
  let (label, conf) := img.top1
  let name := lowerStr label
  if NON_DOG_ANIMALS.any (fun nd => occursIn nd name || occursIn name nd) then
    (false, label, conf, "non_dog_animal_detected")
  else if occursIn "ram" name && decide (conf ≥ 1/10) then
    (false, label, conf, "ram_detected")
  else if decide (conf ≥ threshold) && DOG_KEYWORDS.any (fun k => occursIn k name) then
    (true, label, conf, "keyword_match")
  else
    match top10_reject_scan img.top10 with
    | some r => r
    | none =>
      let (dog_found, dog_confidence, dog_label) := top10_dog_scan img.top10 (false, 0, none)
      if dog_found && decide (dog_confidence ≥ 25/100) then
        (true, dog_label.getD label, dog_confidence, "top10_dog_match")
      else (false, label, conf, "no_match")

/-- `validate_dog_image` (dog_detector.py lines 158-184), returning
`(is_valid, confidence, message, detected_label)`.  `stage` is the outcome of
opening the image and running the detector (`.error` when any of it raises):
every exception is caught and mapped to `(False, 0.0, error message,
"unknown")`.  The human-readable message texts are abbreviated here — no
claim concerns their wording. -/
def validate_dog_image (stage : Except String ImagePreds)
    (threshold : ℚ := 25/100) : Bool × ℚ × String × String :=
  match stage with
  | .error e => (false, 0, "Error validating image: " ++ e, "unknown")
  | .ok img =>
    let r := is_dog_image img threshold
    if r.1 then (true, r.2.2.1, "Dog detected", r.2.1)
    else (false, r.2.2.1, "Image does not appear to contain a dog", r.2.1)

/-! ### The upload validation flow of main.py (lines 389-537) -/

/-- Outcome of the dog-validation part of `combined_upload_and_analyze`:
either one of the three rejection responses (HTTP 400, no analysis), or
acceptance with the breed/confidence the analysis then uses. -/
inductive UploadValidation
  | rejected_not_dog (dog_conf : ℚ)
  | rejected_hairless_suspicion (breed : String) (breed_conf : ℚ)
  | rejected_low_breed_confidence (breed : String) (breed_conf : ℚ)
  | accepted (breed : String) (breed_conf : ℚ)
deriving DecidableEq, Repr

/-- `hairless_breeds` (main.py line 445). -/
def hairless_breeds : List String :=
  ["mexican hairless", "hairless", "xoloitzcuintli", "xolo", "peruvian hairless"]

/-- The validation cascade of `combined_upload_and_analyze` (main.py lines
389-537).  `breedStage` is the outcome of `predict_breed` (`.error` when it
raises).  If the dog detector rejects, the request is rejected immediately
and the breed classifier is never consulted.  Otherwise: a hairless breed
with detector confidence below 0.4 is rejected (lines 443-485); breed
confidence below 0.50 is rejected (lines 487-527); an empty or "unknown"
breed falls back to the detector label (lines 529-532); and an exception in
`predict_breed` is caught at lines 533-537, which fall back to the detector
label and confidence and continue to the analysis. -/
def combined_upload_validation (stage : Except String ImagePreds)
    (threshold : ℚ) (breedStage : Except String (String × ℚ)) :
    UploadValidation :=
  let v := validate_dog_image stage threshold
  let is_valid_dog := v.1
  let dog_conf := v.2.1
  let detected_label := v.2.2.2
  if ¬is_valid_dog then .rejected_not_dog dog_conf
  else
    match breedStage with
    | .error _ =>
      .accepted (if detected_label ≠ "" then detected_label else "Unknown Breed")
        (if dog_conf > 0 then dog_conf else 0)
    | .ok (breed, breed_conf) =>
      let is_hairless_breed :=
        breed ≠ "" && hairless_breeds.any (fun hb => occursIn hb (lowerStr breed))
      if is_hairless_breed && decide (dog_conf < 4/10) then
        .rejected_hairless_suspicion breed breed_conf
      else if breed_conf < 50/100 then
        .rejected_low_breed_confidence breed breed_conf
      else if breed = "" || occursIn "unknown" (lowerStr breed) then
        .accepted (if detected_label ≠ "" then detected_label else "Unknown Breed")
          (if dog_conf > 0 then dog_conf else 0)
      else .accepted breed breed_conf

/-! ### Repetition-aware response composer (response_messages.py) -/

/-- Message type tag constants (response_messages.py lines 4-7). -/
def LOW_CONFIDENCE_WARNING : String := "LOW_CONFIDENCE_WARNING"

def MEDIUM_CONFIDENCE_GUIDANCE : String := "MEDIUM_CONFIDENCE_GUIDANCE"

def SUCCESS_CONFIRMATION : String := "SUCCESS_CONFIRMATION"

def NON_DOG_MESSAGE : String := "NON_DOG_MESSAGE"

/-- `_detect_message_type` (response_messages.py lines 10-25): classify a
rendered message back into a type tag by substring sniffing, defaulting to
`LOW_CONFIDENCE_WARNING`. -/
def detect_message_type (text : String) : String :=
  let text_lower := lowerStr text
  if occursIn "couldn\x27t confidently analyze" text_lower ||
      occursIn "couldn\x27t clearly recognize" text_lower then
    LOW_CONFIDENCE_WARNING
  else if occursIn "might need a clearer photo" text_lower ||
      occursIn "can see something that might be" text_lower then
    MEDIUM_CONFIDENCE_GUIDANCE
  else if occursIn "detected successfully" text_lower ||
      occursIn "breed identified" text_lower then
    SUCCESS_CONFIRMATION
  else if occursIn "couldn\x27t clearly recognize a dog" text_lower then
    NON_DOG_MESSAGE
  else LOW_CONFIDENCE_WARNING

/-- One entry of the recent chat history handed to the composer. -/
structure ChatMsg where
  sender : String
  text : String
deriving DecidableEq, Repr

/-- The sender test of `_count_recent_message_type` line 44:
`sender == 'ai' or 'ai' in str(sender).lower()`. -/
def isAiMsg (m : ChatMsg) : Bool :=
  m.sender == "ai" || occursIn "ai" (lowerStr m.sender)

/-- The backward-counting loop of `_count_recent_message_type` (lines 49-58):
given the recent AI messages most-recent first, count the leading run whose
detected type equals `message_type`. -/
def count_consecutive_type : List ChatMsg → String → Nat
  | [], _ => 0
  | m :: rest, message_type =>
    if detect_message_type m.text == message_type then
      1 + count_consecutive_type rest message_type
    else 0

/-- `_count_recent_message_type` (response_messages.py lines 28-58): restrict
to the last `lookback` AI messages and count the most-recent consecutive run
of the given type. -/
def count_recent_message_type (messages : List ChatMsg) (message_type : String)
    (lookback : Nat := 3) : Nat :=
  if messages = [] then 0
  else
    let ai_messages := messages.filter isAiMsg
    let ai_messages := ai_messages.drop (ai_messages.length - lookback)
    if ai_messages = [] then 0
    else count_consecutive_type ai_messages.reverse message_type

/-- `get_dog_detection_message` (response_messages.py lines 61-120), with the
exact message texts of the source.  Below confidence 0.30 the
`LOW_CONFIDENCE_WARNING` variants are selected by repetition count
(0 / 1 / 2-or-more); between 0.30 and 0.60 the `MEDIUM_CONFIDENCE_GUIDANCE`
branch has only two variants (0 / 1-or-more); at 0.60 and above a fixed
message is returned. -/
def get_dog_detection_message (dog_conf : ℚ)
    (recent_messages : List ChatMsg := []) : String :=
  if dog_conf < 30/100 then
    let repetition_count :=
      count_recent_message_type recent_messages LOW_CONFIDENCE_WARNING 3
    if repetition_count = 0 then
      "⚠️ I couldn\x27t confidently analyze this image yet.\n\n" ++
      "The photo appears to be a close-up or partial view, so I wasn\x27t able to clearly recognize your dog.\n\n" ++
      "👉 Please upload a clear photo where your dog\x27s face or body is visible."
    else if repetition_count = 1 then
      "I still need one clear photo of your dog to continue the analysis."
    else
      "Please upload a clear photo of your dog."
  else if dog_conf < 60/100 then
    let repetition_count :=
      count_recent_message_type recent_messages MEDIUM_CONFIDENCE_GUIDANCE 3
    if repetition_count = 0 then
      "🐾 I can see something that might be your dog, but I need a clearer image to be sure.\n\n" ++
      "For best results:\n" ++
      "• Upload one clear photo of your dog\n" ++
      "• Then upload a close-up of the specific area you\x27re concerned about"
    else
      "I need a clearer photo of your dog to continue."
  else
    "✅ I can see your dog!\n\n" ++
    "I\x27m processing the image now to identify the breed and provide insights."

/-- `get_non_dog_message` (response_messages.py lines 235-252): the
`NON_DOG_MESSAGE` variants selected by repetition count (0 / 1 / 2-or-more). -/
def get_non_dog_message (recent_messages : List ChatMsg := []) : String :=
  let repetition_count := count_recent_message_type recent_messages NON_DOG_MESSAGE 3
  if repetition_count = 0 then
    "I couldn\x27t clearly recognize a dog in this image yet.\n\n" ++
    "This tool works best with clear photos of dogs. Please upload a photo of your dog to continue."
  else if repetition_count = 1 then
    "I need a photo of your dog to continue. Please upload a clear photo of your dog."
  else
    "Please upload a photo of your dog."

/-! ### Helper lemmas -/

/-- A concrete norm oracle used to instantiate theorems on concrete inputs:
the (squared) Euclidean norm, which is zero exactly on zero vectors. -/
def normSq (v : List ℚ) : ℚ := dotL v v

theorem startsWithL_self (l : List Char) : startsWithL l l = true := by
  induction l with
  | nil => rfl
  | cons a as ih => simp [startsWithL, ih]

theorem occursIn_self (s : String) : occursIn s s = true := by
  unfold occursIn
  cases h : s.data with
  | nil => rfl
  | cons b bs => simp [occursInL, startsWithL_self]

theorem mem_insertScoreDesc {α : Type} (x y : α × ℚ) (l : List (α × ℚ)) :
    y ∈ insertScoreDesc x l ↔ y = x ∨ y ∈ l := by
  induction l with
  | nil => simp [insertScoreDesc]
  | cons z zs ih =>
    simp only [insertScoreDesc]
    split
    · simp only [List.mem_cons, ih]
      tauto
    · simp only [List.mem_cons]

theorem mem_sortScoreDesc {α : Type} (y : α × ℚ) (l : List (α × ℚ)) :
    y ∈ sortScoreDesc l ↔ y ∈ l := by
  induction l with
  | nil => simp [sortScoreDesc]
  | cons z zs ih => simp [sortScoreDesc, mem_insertScoreDesc, ih]

theorem take_head_eq {α : Type} (k : Nat) (x y : α) (l r : List α)
    (h : (x :: l).take k = y :: r) : y = x := by
  cases k with
  | zero => simp at h
  | succ n =>
    rw [List.take_succ_cons] at h
    exact (List.cons.injEq _ _ _ _ ▸ h).1.symm

/-! ### Claim C9 -/

/-- Claim C9: confidence tiering is monotonic — for every pair of scores
`s1 < s2`, the tier of `s1` is at most the tier of `s2` under the ordering
`none < low < medium < high` with the fixed cutoffs 0.55 / 0.70 / 0.85. -/
theorem confidence_tier_monotone (s1 s2 : ℚ) (h : s1 < s2) :
    (classifyConfidence s1).rank ≤ (classifyConfidence s2).rank := by
  unfold classifyConfidence HIGH_CONFIDENCE_THRESHOLD MEDIUM_CONFIDENCE_THRESHOLD
    LOW_CONFIDENCE_THRESHOLD
  split_ifs <;> simp [Confidence.rank] <;> linarith

/-- Witness for C9 at the concrete scores 0.5 and 0.9. -/
theorem confidence_tier_monotone_witness :
    (1:ℚ)/2 < 9/10 ∧
      (classifyConfidence ((1:ℚ)/2)).rank ≤ (classifyConfidence ((9:ℚ)/10)).rank :=
  ⟨by norm_num, confidence_tier_monotone ((1:ℚ)/2) ((9:ℚ)/10) (by norm_num)⟩

/-! ### Claim C10 -/

/-- Claim C10: cosine similarity is total and never divides by zero — when
either vector has zero norm, `cosine_similarity` returns exactly 0, and in
the in-memory fallback search every similarity computed against a zero-norm
query is exactly 0, so every score it feeds onward is well defined. -/
theorem cosine_zero_norm_total (norm : List ℚ → ℚ) (a b : List ℚ)
    (h : norm a = 0 ∨ norm b = 0) :
    cosine_similarity norm a b = 0 ∧
    (∀ (rows : List (FAQEntry × Option (List ℚ))) (top_k : Nat) (min_similarity : ℚ),
      norm a = 0 →
      ∀ p ∈ search_faqs_fallback norm (.ok rows) a top_k min_similarity, p.2 = 0) := by
  constructor
  · simp only [cosine_similarity]
    exact if_pos h
  · intro rows top_k min_similarity h0 p hp
    simp only [search_faqs_fallback] at hp
    split at hp
    · simp at hp
    · have hp2 := (mem_sortScoreDesc p _).mp (List.take_subset _ _ hp)
      rw [List.mem_filterMap] at hp2
      obtain ⟨fe, _, hfe⟩ := hp2
      rcases fe with ⟨f, none | emb⟩
      · simp at hfe
      · simp only [h0, true_or, if_true, if_pos] at hfe
        split at hfe
        · rw [Option.some.injEq] at hfe
          rw [← hfe]
        · simp at hfe

/-- Witness for C10 at concrete vectors: the query `[0]` has zero squared
norm, so both the named cosine function and the fallback similarity are 0. -/
theorem cosine_zero_norm_total_witness :
    (normSq [(0:ℚ)] = 0 ∨ normSq [(1:ℚ)] = 0) ∧
    (cosine_similarity normSq [(0:ℚ)] [(1:ℚ)] = 0 ∧
      (∀ (rows : List (FAQEntry × Option (List ℚ))) (top_k : Nat) (min_similarity : ℚ),
        normSq [(0:ℚ)] = 0 →
        ∀ p ∈ search_faqs_fallback normSq (.ok rows) [(0:ℚ)] top_k min_similarity,
          p.2 = 0)) :=
  ⟨Or.inl (by norm_num [normSq, dotL]),
    cosine_zero_norm_total normSq [(0:ℚ)] [(1:ℚ)] (Or.inl (by norm_num [normSq, dotL]))⟩

/-! ### Claim C5 -/

/-- Counterexample to claim C5: no `VectorStoreUnavailable` signal exists.
When both the pgvector query and the in-memory fallback fail, the search
returns the empty list — the very same value it returns when the store is
reachable and simply has no matching rows, so the caller cannot distinguish
"could not search" from "no matches". -/
theorem store_failure_returns_empty_list :
    search_faqs_vector_db normSq
      ⟨[], .error "connection refused", .error "connection refused"⟩
      [(1:ℚ)] 3 (55/100) = [] ∧
    search_faqs_vector_db normSq ⟨[], .ok [], .ok []⟩ [(1:ℚ)] 3 (55/100) = [] :=
  ⟨rfl, rfl⟩

/-- Amended C5: on a pgvector failure `search_faqs_vector_db` silently runs
the in-memory fallback instead of signalling unavailability, and when that
fallback also fails it returns the empty list; on success it returns the
store rows unchanged.  No dedicated unavailability error is ever raised. -/
theorem store_failure_fallback_semantics (norm : List ℚ → ℚ)
    (faqs : List FAQEntry) (e1 e2 : String) (qe : List ℚ) (top_k : Nat)
    (min_similarity : ℚ) :
    search_faqs_vector_db norm ⟨faqs, .error e1, .error e2⟩ qe top_k min_similarity = [] ∧
    (∀ rows, search_faqs_vector_db norm ⟨faqs, .error e1, rows⟩ qe top_k min_similarity =
      search_faqs_fallback norm rows qe top_k min_similarity) ∧
    (∀ rs, search_faqs_vector_db norm ⟨faqs, .ok rs, .error e2⟩ qe top_k min_similarity = rs) :=
  ⟨rfl, fun _ => rfl, fun _ => rfl⟩

/-! ### Claim C2 -/

/-- Claim C2: reject-list precedence.  Whenever the coarse detector's top-1
prediction is a reject-list label (its lowercased form is in
`NON_DOG_ANIMALS`) with confidence at least 0.10, `is_dog_image` reports
`is_dog = False`; and the full upload validation rejects the image without
the breed classifier being able to change the outcome — the conclusion holds
for every `breedStage` value.  (The code is even stricter: the top-1
reject-list check carries no confidence floor at all.) -/
theorem reject_list_top1_rejects (img : ImagePreds) (threshold : ℚ)
    (breedStage : Except String (String × ℚ))
    (h1 : lowerStr img.top1.1 ∈ NON_DOG_ANIMALS) (h2 : img.top1.2 ≥ 1/10) :
    (is_dog_image img threshold).1 = false ∧
    combined_upload_validation (.ok img) threshold breedStage =
      .rejected_not_dog img.top1.2 := by
  obtain ⟨⟨label, conf⟩, top10⟩ := img
  simp only at h1 ⊢
  have hany : (NON_DOG_ANIMALS.any fun nd =>
      occursIn nd (lowerStr label) || occursIn (lowerStr label) nd) = true := by
    rw [List.any_eq_true]
    exact ⟨lowerStr label, h1, by simp [occursIn_self]⟩
  have hid : is_dog_image ⟨(label, conf), top10⟩ threshold =
      (false, label, conf, "non_dog_animal_detected") := by
    simp only [is_dog_image, hany]
    rfl
  refine ⟨by rw [hid], ?_⟩
  simp [combined_upload_validation, validate_dog_image, hid]

/-- Witness for C2: the spec's own example — top-1 "ram" at confidence 0.12 is
rejected even though the breed classifier would report a dog breed at 0.90. -/
theorem reject_list_top1_rejects_witness :
    lowerStr "ram" ∈ NON_DOG_ANIMALS ∧ (12:ℚ)/100 ≥ 1/10 ∧
    ((is_dog_image ⟨("ram", 12/100), [("ram", 12/100)]⟩ (25/100)).1 = false ∧
      combined_upload_validation (.ok ⟨("ram", 12/100), [("ram", 12/100)]⟩) (25/100)
        (.ok ("Labrador retriever", 9/10)) = .rejected_not_dog (12/100)) :=
  ⟨by decide, by norm_num,
    reject_list_top1_rejects ⟨("ram", 12/100), [("ram", 12/100)]⟩ (25/100)
      (.ok ("Labrador retriever", 9/10)) (by decide) (by norm_num)⟩

/-! ### Claim C3 -/

/-- Concrete evaluation of the detector on a clean top-1 "beagle" at 0.9:
accepted through the keyword-match branch. -/
theorem is_dog_image_beagle_eq :
    is_dog_image ⟨("beagle", 9/10), []⟩ (25/100) =
      (true, "beagle", 9/10, "keyword_match") := by
  have hno : (NON_DOG_ANIMALS.any fun nd =>
      occursIn nd (lowerStr "beagle") || occursIn (lowerStr "beagle") nd) = false := by
    decide
  have hram : occursIn "ram" (lowerStr "beagle") = false := by decide
  have hdogk : (DOG_KEYWORDS.any fun k => occursIn k (lowerStr "beagle")) = true := by
    decide
  simp only [is_dog_image, hno, hram, hdogk]
  norm_num

/-- Counterexample to claim C3: an exception in the fine-grained
breed-classifier stage does NOT produce a rejection.  With the detector
accepting a beagle at 0.9 and `predict_breed` raising, the upload flow
catches the exception, falls back to the detector's label and confidence,
and proceeds to analyze the image — the image is accepted. -/
theorem breed_exception_still_accepts :
    combined_upload_validation (.ok ⟨("beagle", 9/10), []⟩) (25/100)
      (.error "CUDA error") = .accepted "beagle" (9/10) := by
  simp [combined_upload_validation, validate_dog_image, is_dog_image_beagle_eq]

/-- Amended C3: an exception anywhere in the coarse dog-detector stage is
caught by `validate_dog_image` and yields rejection with confidence 0, and
the upload flow then rejects; but an exception in the breed-classifier stage
is caught at main.py lines 533-537 and the image remains accepted, analyzed
with the detector's label and confidence as fallback. -/
theorem stage_exception_handling (e breedErr : String) (threshold : ℚ)
    (img : ImagePreds) (hdog : (is_dog_image img threshold).1 = true) :
    (validate_dog_image (.error e) threshold).1 = false ∧
    (validate_dog_image (.error e) threshold).2.1 = 0 ∧
    (∀ bs, combined_upload_validation (.error e) threshold bs = .rejected_not_dog 0) ∧
    combined_upload_validation (.ok img) threshold (.error breedErr) =
      .accepted
        (if (is_dog_image img threshold).2.1 ≠ "" then (is_dog_image img threshold).2.1
          else "Unknown Breed")
        (if (is_dog_image img threshold).2.2.1 > 0 then (is_dog_image img threshold).2.2.1
          else 0) := by
  refine ⟨rfl, rfl, fun bs => rfl, ?_⟩
  simp only [combined_upload_validation, validate_dog_image, hdog]
  simp

/-- Witness for the amended C3 at a concrete accepted image and concrete
stage errors. -/
theorem stage_exception_handling_witness :
    (is_dog_image ⟨("beagle", 9/10), []⟩ (25/100)).1 = true ∧
    ((validate_dog_image (.error "disk error") (25/100)).1 = false ∧
      (validate_dog_image (.error "disk error") (25/100)).2.1 = 0 ∧
      (∀ bs, combined_upload_validation (.error "disk error") (25/100) bs =
        .rejected_not_dog 0) ∧
      combined_upload_validation (.ok ⟨("beagle", 9/10), []⟩) (25/100)
          (.error "CUDA error") =
        .accepted
          (if (is_dog_image ⟨("beagle", 9/10), []⟩ (25/100)).2.1 ≠ "" then
            (is_dog_image ⟨("beagle", 9/10), []⟩ (25/100)).2.1 else "Unknown Breed")
          (if (is_dog_image ⟨("beagle", 9/10), []⟩ (25/100)).2.2.1 > 0 then
            (is_dog_image ⟨("beagle", 9/10), []⟩ (25/100)).2.2.1 else 0)) := by
  have hdog : (is_dog_image ⟨("beagle", 9/10), []⟩ (25/100)).1 = true := by
    rw [is_dog_image_beagle_eq]
  exact ⟨hdog, stage_exception_handling "disk error" "CUDA error" (25/100) _ hdog⟩

/-! ### Claim C8 -/

/-- Counterexample to claim C8: for the `MEDIUM_CONFIDENCE_GUIDANCE` category
the composer has no distinct minimal third variant — a history with exactly
one prior same-category assistant message and a history with two select the
very same message, so "exactly 1 selects a shortened reminder, 2 or more
selects the minimal one-line prompt" fails for this category. -/
theorem medium_guidance_two_variants_only :
    count_recent_message_type
      [⟨"ai", "🐾 I can see something that might be your dog, but I need a clearer image to be sure.\n\nFor best results:\n• Upload one clear photo of your dog\n• Then upload a close-up of the specific area you\x27re concerned about"⟩]
      MEDIUM_CONFIDENCE_GUIDANCE 3 = 1 ∧
    count_recent_message_type
      [⟨"ai", "🐾 I can see something that might be your dog, but I need a clearer image to be sure.\n\nFor best results:\n• Upload one clear photo of your dog\n• Then upload a close-up of the specific area you\x27re concerned about"⟩,
       ⟨"ai", "🐾 I can see something that might be your dog, but I need a clearer image to be sure.\n\nFor best results:\n• Upload one clear photo of your dog\n• Then upload a close-up of the specific area you\x27re concerned about"⟩]
      MEDIUM_CONFIDENCE_GUIDANCE 3 = 2 ∧
    get_dog_detection_message (45/100)
      [⟨"ai", "🐾 I can see something that might be your dog, but I need a clearer image to be sure.\n\nFor best results:\n• Upload one clear photo of your dog\n• Then upload a close-up of the specific area you\x27re concerned about"⟩] =
    get_dog_detection_message (45/100)
      [⟨"ai", "🐾 I can see something that might be your dog, but I need a clearer image to be sure.\n\nFor best results:\n• Upload one clear photo of your dog\n• Then upload a close-up of the specific area you\x27re concerned about"⟩,
       ⟨"ai", "🐾 I can see something that might be your dog, but I need a clearer image to be sure.\n\nFor best results:\n• Upload one clear photo of your dog\n• Then upload a close-up of the specific area you\x27re concerned about"⟩] := by
  refine ⟨by decide, by decide, ?_⟩
  have c1 : count_recent_message_type
      [⟨"ai", "🐾 I can see something that might be your dog, but I need a clearer image to be sure.\n\nFor best results:\n• Upload one clear photo of your dog\n• Then upload a close-up of the specific area you\x27re concerned about"⟩]
      MEDIUM_CONFIDENCE_GUIDANCE 3 = 1 := by decide
  have c2 : count_recent_message_type
      [⟨"ai", "🐾 I can see something that might be your dog, but I need a clearer image to be sure.\n\nFor best results:\n• Upload one clear photo of your dog\n• Then upload a close-up of the specific area you\x27re concerned about"⟩,
       ⟨"ai", "🐾 I can see something that might be your dog, but I need a clearer image to be sure.\n\nFor best results:\n• Upload one clear photo of your dog\n• Then upload a close-up of the specific area you\x27re concerned about"⟩]
      MEDIUM_CONFIDENCE_GUIDANCE 3 = 2 := by decide
  norm_num [get_dog_detection_message, c1, c2]

/-- Amended C8: variant selection by the count of most-recent consecutive
same-category assistant messages holds with three variants (full / shortened
/ minimal, selected by count 0 / 1 / 2-or-more) for the
`LOW_CONFIDENCE_WARNING` category of `get_dog_detection_message` and for
`get_non_dog_message`; for the `MEDIUM_CONFIDENCE_GUIDANCE` category there
are only two variants: the full message at count 0 and one short line at
every count of 1 or more. -/
theorem composer_variant_selection (dog_conf : ℚ) (msgs : List ChatMsg) :
    (dog_conf < 30/100 →
      get_dog_detection_message dog_conf msgs =
        (if count_recent_message_type msgs LOW_CONFIDENCE_WARNING 3 = 0 then
          "⚠️ I couldn\x27t confidently analyze this image yet.\n\n" ++
          "The photo appears to be a close-up or partial view, so I wasn\x27t able to clearly recognize your dog.\n\n" ++
          "👉 Please upload a clear photo where your dog\x27s face or body is visible."
         else if count_recent_message_type msgs LOW_CONFIDENCE_WARNING 3 = 1 then
          "I still need one clear photo of your dog to continue the analysis."
         else "Please upload a clear photo of your dog.")) ∧
    (30/100 ≤ dog_conf → dog_conf < 60/100 →
      get_dog_detection_message dog_conf msgs =
        (if count_recent_message_type msgs MEDIUM_CONFIDENCE_GUIDANCE 3 = 0 then
          "🐾 I can see something that might be your dog, but I need a clearer image to be sure.\n\n" ++
          "For best results:\n" ++
          "• Upload one clear photo of your dog\n" ++
          "• Then upload a close-up of the specific area you\x27re concerned about"
         else "I need a clearer photo of your dog to continue.")) ∧
    (get_non_dog_message msgs =
      (if count_recent_message_type msgs NON_DOG_MESSAGE 3 = 0 then
        "I couldn\x27t clearly recognize a dog in this image yet.\n\n" ++
        "This tool works best with clear photos of dogs. Please upload a photo of your dog to continue."
       else if count_recent_message_type msgs NON_DOG_MESSAGE 3 = 1 then
        "I need a photo of your dog to continue. Please upload a clear photo of your dog."
       else "Please upload a photo of your dog.")) := by
  refine ⟨fun h => ?_, fun h1 h2 => ?_, rfl⟩
  · simp [get_dog_detection_message, h]
  · simp [get_dog_detection_message, not_lt.mpr h1, h2]

/-- Witness for the amended C8 at confidence 0.45 with an empty history: the
full medium-confidence message is selected. -/
theorem composer_variant_selection_witness :
    (45:ℚ)/100 ≥ 30/100 ∧ (45:ℚ)/100 < 60/100 ∧
    get_dog_detection_message ((45:ℚ)/100) [] =
      "🐾 I can see something that might be your dog, but I need a clearer image to be sure.\n\n" ++
      "For best results:\n" ++
      "• Upload one clear photo of your dog\n" ++
      "• Then upload a close-up of the specific area you\x27re concerned about" := by
  refine ⟨by norm_num, by norm_num, ?_⟩
  have h := (composer_variant_selection ((45:ℚ)/100) []).2.1 (by norm_num) (by norm_num)
  have c0 : count_recent_message_type [] MEDIUM_CONFIDENCE_GUIDANCE 3 = 0 := rfl
  rw [h, c0]
  rfl

/-! ### Claim C1 -/

/-- Counterexample to claim C1: the confidence level is NOT a function of the
score alone.  A keyword-fallback match scoring 1/3 — below every cutoff, so
the fixed mapping says "none" — is reported with confidence "medium",
because every keyword-fallback path hard-codes "medium". -/
theorem keyword_match_below_low_reports_medium :
    get_faq_answer_optimized normSq true none
      ⟨[⟨1, "vaccination guide", "see vet", none⟩], .ok [], .ok []⟩
      "puppy vaccination timing" 3 =
      (some "see vet", some ⟨1, "vaccination guide", "see vet", none⟩, "medium", 1/3) ∧
    (1:ℚ)/3 < LOW_CONFIDENCE_THRESHOLD ∧
    (classifyConfidence (1/3)).name = "none" := by
  have hwords : meaningful_words (stripStr (lowerStr "puppy vaccination timing")) =
      ["puppy", "vaccination", "timing"] := by decide
  have hfilter : [(⟨1, "vaccination guide", "see vet", none⟩ : FAQEntry)].filter
      (fun f => (["puppy", "vaccination", "timing"].take 8).any
        (fun w => occursIn w (lowerStr f.question))) =
      [⟨1, "vaccination guide", "see vet", none⟩] := by decide
  have hqm : (["puppy", "vaccination", "timing"].filter
      (fun w => occursIn w (lowerStr "vaccination guide"))).length = 1 := by decide
  have ham : (["puppy", "vaccination", "timing"].filter
      (fun w => occursIn w (lowerStr "see vet"))).length = 0 := by decide
  have hkw : search_faqs_keyword_fallback [⟨1, "vaccination guide", "see vet", none⟩]
      "puppy vaccination timing" 3 =
      [(⟨1, "vaccination guide", "see vet", none⟩, 1/3)] := by
    simp only [search_faqs_keyword_fallback, hwords, hfilter, hqm, ham]
    norm_num [sortScoreDesc, insertScoreDesc, min_def, hqm, ham]
    intro hcontr
    exact absurd hcontr (by simp)
  have hsan : sanitize_faq_answer "see vet" = "see vet" := by decide
  refine ⟨?_, by norm_num [LOW_CONFIDENCE_THRESHOLD], ?_⟩
  · simp only [get_faq_answer_optimized, keyword_fallback_return, hkw, hsan]
    rfl
  · norm_num [classifyConfidence, HIGH_CONFIDENCE_THRESHOLD, MEDIUM_CONFIDENCE_THRESHOLD,
      LOW_CONFIDENCE_THRESHOLD, Confidence.name]

/-- Amended C1: the fixed-cutoff mapping governs exactly the vector /
in-memory path — whenever `search_faqs_vector_db` (which itself covers both
the pgvector store and the in-memory cosine fallback) returns a best score,
the reported confidence string equals the cutoff classification of that
score; but every keyword-fallback match is reported as "medium" regardless
of its score, on both the missing-client path and the failed-embedding
path. -/
theorem confidence_level_by_matcher (norm : List ℚ → ℚ) (db : FaqDb) (qe : List ℚ)
    (query : String) (top_k : Nat) (best : FAQEntry) (sim : ℚ)
    (rest : List (FAQEntry × ℚ))
    (hdb : search_faqs_vector_db norm db qe top_k LOW_CONFIDENCE_THRESHOLD =
      (best, sim) :: rest) :
    (get_faq_answer_optimized norm true (some qe) db query top_k).2.2.1 =
      (classifyConfidence sim).name ∧
    (∀ (db2 : FaqDb) (q2 : String) (k2 : Nat) (b : FAQEntry) (s : ℚ)
      (r : List (FAQEntry × ℚ)),
      search_faqs_keyword_fallback db2.faqs q2 k2 = (b, s) :: r →
      (get_faq_answer_optimized norm true none db2 q2 k2).2.2.1 = "medium" ∧
      (get_faq_answer_optimized norm false none db2 q2 k2).2.2.1 = "medium") := by
  constructor
  · simp only [get_faq_answer_optimized, hdb]
    by_cases h1 : sim ≥ HIGH_CONFIDENCE_THRESHOLD
    · simp [h1, classifyConfidence, Confidence.name]
    · by_cases h2 : sim ≥ MEDIUM_CONFIDENCE_THRESHOLD
      · simp [h1, h2, classifyConfidence, Confidence.name]
      · by_cases h3 : sim ≥ LOW_CONFIDENCE_THRESHOLD
        · simp [h1, h2, h3, classifyConfidence, Confidence.name]
        · simp [h1, h2, h3, classifyConfidence, Confidence.name]
  · intro db2 q2 k2 b s r hkw
    constructor
    · simp only [get_faq_answer_optimized, keyword_fallback_return, hkw]
      rfl
    · simp only [get_faq_answer_optimized, keyword_fallback_return, hkw]
      rfl

/-- Witness for the amended C1 at a concrete vector-path result of score
0.92. -/
theorem confidence_level_by_matcher_witness :
    search_faqs_vector_db normSq ⟨[], .ok [(⟨3, "q3", "a3", none⟩, 92/100)], .ok []⟩
      [(1:ℚ)] 3 LOW_CONFIDENCE_THRESHOLD = [(⟨3, "q3", "a3", none⟩, 92/100)] ∧
    ((get_faq_answer_optimized normSq true (some [(1:ℚ)])
        ⟨[], .ok [(⟨3, "q3", "a3", none⟩, 92/100)], .ok []⟩ "any question" 3).2.2.1 =
      (classifyConfidence (92/100)).name ∧
      (∀ (db2 : FaqDb) (q2 : String) (k2 : Nat) (b : FAQEntry) (s : ℚ)
        (r : List (FAQEntry × ℚ)),
        search_faqs_keyword_fallback db2.faqs q2 k2 = (b, s) :: r →
        (get_faq_answer_optimized normSq true none db2 q2 k2).2.2.1 = "medium" ∧
        (get_faq_answer_optimized normSq false none db2 q2 k2).2.2.1 = "medium")) :=
  ⟨rfl, confidence_level_by_matcher normSq
    ⟨[], .ok [(⟨3, "q3", "a3", none⟩, 92/100)], .ok []⟩ [(1:ℚ)] "any question" 3
    ⟨3, "q3", "a3", none⟩ (92/100) [] rfl⟩

/-! ### Claim C4 -/

/-- Counterexample to claim C4: a HIGH-tier match is not returned verbatim.
With a knowledge-base answer of six lines matched at similarity 0.92, the
optimized pipeline returns only the first five lines — the stored answer is
truncated by `sanitize_faq_answer`, not character-identical. -/
theorem high_tier_answer_truncated :
    get_faq_answer_optimized normSq true (some [1])
      ⟨[], .ok [(⟨1, "dog wont eat", "a\nb\nc\nd\ne\nf", none⟩, 92/100)], .ok []⟩
      "my dog wont eat" 3 =
      (some "a\nb\nc\nd\ne", some ⟨1, "dog wont eat", "a\nb\nc\nd\ne\nf", none⟩,
        "high", 92/100) ∧
    "a\nb\nc\nd\ne" ≠ "a\nb\nc\nd\ne\nf" := by
  have hs : sanitize_faq_answer "a\nb\nc\nd\ne\nf" = "a\nb\nc\nd\ne" := by decide
  refine ⟨?_, by decide⟩
  simp only [get_faq_answer_optimized, search_faqs_vector_db, hs]
  norm_num [HIGH_CONFIDENCE_THRESHOLD]

/-- Amended C4: a best match at similarity at least 0.85 is tier "high" and
returns the stored answer after `sanitize_faq_answer` (truncation to 5 lines
/ 500 characters plus whitespace strip) in the optimized pipeline — hence
character-identical exactly when sanitization leaves the answer unchanged —
while the non-optimized `get_faq_answer` returns the stored answer verbatim;
neither consults the language model. -/
theorem high_tier_answer_after_sanitize (norm : List ℚ → ℚ) (db : FaqDb)
    (qe : List ℚ) (query : String) (top_k : Nat) (best : FAQEntry) (sim : ℚ)
    (rest : List (FAQEntry × ℚ))
    (hdb : search_faqs_vector_db norm db qe top_k LOW_CONFIDENCE_THRESHOLD =
      (best, sim) :: rest)
    (hsim : sim ≥ HIGH_CONFIDENCE_THRESHOLD) :
    get_faq_answer_optimized norm true (some qe) db query top_k =
      (some (sanitize_faq_answer best.answer), some best, "high", sim) ∧
    (∀ (clientAvailable : Bool)
      (loaded : Except String (List FAQEntry × Option (List (List ℚ))))
      (qe2 : Option (List ℚ)),
      search_faqs norm clientAvailable loaded qe2 top_k LOW_CONFIDENCE_THRESHOLD =
        (best, sim) :: rest →
      get_faq_answer norm clientAvailable loaded qe2 top_k =
        (some best.answer, some best, "high", sim)) := by
  constructor
  · simp only [get_faq_answer_optimized, hdb]
    simp [if_pos hsim]
  · intro c loaded qe2 hs
    simp only [get_faq_answer, hs]
    simp [if_pos hsim]

/-- Witness for the amended C4 at a concrete best match of similarity 0.92
whose answer sanitization leaves unchanged. -/
theorem high_tier_answer_after_sanitize_witness :
    search_faqs_vector_db normSq
      ⟨[], .ok [(⟨2, "q2", "short answer", none⟩, 92/100)], .ok []⟩ [(1:ℚ)] 3
      LOW_CONFIDENCE_THRESHOLD = [(⟨2, "q2", "short answer", none⟩, 92/100)] ∧
    (92:ℚ)/100 ≥ HIGH_CONFIDENCE_THRESHOLD ∧
    (get_faq_answer_optimized normSq true (some [(1:ℚ)])
        ⟨[], .ok [(⟨2, "q2", "short answer", none⟩, 92/100)], .ok []⟩ "q" 3 =
      (some (sanitize_faq_answer "short answer"), some ⟨2, "q2", "short answer", none⟩,
        "high", 92/100) ∧
      (∀ (clientAvailable : Bool)
        (loaded : Except String (List FAQEntry × Option (List (List ℚ))))
        (qe2 : Option (List ℚ)),
        search_faqs normSq clientAvailable loaded qe2 3 LOW_CONFIDENCE_THRESHOLD =
          [(⟨2, "q2", "short answer", none⟩, 92/100)] →
        get_faq_answer normSq clientAvailable loaded qe2 3 =
          (some "short answer", some ⟨2, "q2", "short answer", none⟩, "high", 92/100))) :=
  ⟨rfl, by norm_num [HIGH_CONFIDENCE_THRESHOLD],
    high_tier_answer_after_sanitize normSq
      ⟨[], .ok [(⟨2, "q2", "short answer", none⟩, 92/100)], .ok []⟩ [(1:ℚ)] "q" 3
      ⟨2, "q2", "short answer", none⟩ (92/100) [] rfl
      (by norm_num [HIGH_CONFIDENCE_THRESHOLD])⟩

/-! ### Claim C6 -/

/-- Counterexample to claim C6: embedding the same query string twice is not
provider-call free on the second call.  `generate_embedding` consults no
cache: even with both caches warm, each call with a live client performs one
more provider call (the vectors returned are identical only because the
provider is deterministic here). -/
theorem second_embed_call_hits_provider :
    (let provider : String → Option (List ℚ) := fun _ => some [1, 2, 3]
     let s0 : EmbedState := ⟨some [⟨1, "q", "a", none⟩], some [[1]], none, 0⟩
     let r1 := generate_embedding provider true "what should I feed my dog" s0
     let r2 := generate_embedding provider true "what should I feed my dog" r1.2
     r2.1 = r1.1 ∧ r1.2.providerCalls = 1 ∧ r2.2.providerCalls = 2) := by
  simp [generate_embedding]

/-- Amended C6: idempotent warm-cache behavior holds for the knowledge-base
embeddings, not for per-query embedding.  With both in-memory caches warm,
`load_or_generate_embeddings` returns the cached vectors and leaves the
state (including the provider-call counter) unchanged, and a second call
returns the identical result; `generate_embedding`, by contrast, performs
one provider call on every invocation with a live client. -/
theorem warm_cache_idempotent_loading (provider : String → Option (List ℚ))
    (clientAvailable : Bool) (jsonFaqs fs : List FAQEntry) (es : List (List ℚ))
    (s : EmbedState) (h1 : s.faq_cache = some fs) (h2 : s.embeddings_cache = some es) :
    load_or_generate_embeddings provider clientAvailable jsonFaqs false s =
      ((fs, some es), s) ∧
    load_or_generate_embeddings provider clientAvailable jsonFaqs false
      (load_or_generate_embeddings provider clientAvailable jsonFaqs false s).2 =
      ((fs, some es), s) ∧
    (∀ p t st, (generate_embedding p true t st).2.providerCalls = st.providerCalls + 1) := by
  have key : load_or_generate_embeddings provider clientAvailable jsonFaqs false s =
      ((fs, some es), s) := by
    obtain ⟨fc, ec, cf, n⟩ := s
    simp only at h1 h2
    subst h1 h2
    rfl
  refine ⟨key, ?_, fun p t st => rfl⟩
  rw [key]
  exact key

/-- Witness for the amended C6 at a concrete warm state. -/
theorem warm_cache_idempotent_loading_witness :
    (EmbedState.mk (some [⟨1, "q", "a", none⟩]) (some [[1]]) none 5).faq_cache =
      some [⟨1, "q", "a", none⟩] ∧
    (EmbedState.mk (some [⟨1, "q", "a", none⟩]) (some [[1]]) none 5).embeddings_cache =
      some [[1]] ∧
    (load_or_generate_embeddings (fun _ => some [1]) true []
        false (EmbedState.mk (some [⟨1, "q", "a", none⟩]) (some [[1]]) none 5) =
      (([⟨1, "q", "a", none⟩], some [[1]]),
        EmbedState.mk (some [⟨1, "q", "a", none⟩]) (some [[1]]) none 5) ∧
      load_or_generate_embeddings (fun _ => some [1]) true []
        false (load_or_generate_embeddings (fun _ => some [1]) true []
          false (EmbedState.mk (some [⟨1, "q", "a", none⟩]) (some [[1]]) none 5)).2 =
      (([⟨1, "q", "a", none⟩], some [[1]]),
        EmbedState.mk (some [⟨1, "q", "a", none⟩]) (some [[1]]) none 5) ∧
      (∀ p t st, (generate_embedding p true t st).2.providerCalls = st.providerCalls + 1)) :=
  ⟨rfl, rfl, warm_cache_idempotent_loading (fun _ => some [1]) true [] _ _ _ rfl rfl⟩

/-! ### Claim C7 -/

theorem keyword_answer_branch_le (faqs : List FAQEntry) (words : List String)
    (k : Nat) (p : FAQEntry × ℚ) (hp : p ∈ keyword_answer_branch faqs words k) :
    p.2 ≤ 75/100 := by
  simp only [keyword_answer_branch] at hp
  split at hp
  · simp at hp
  · rename_i b s rest heq
    split at hp
    · have hmem := List.take_subset _ _ hp
      rw [← heq] at hmem
      rw [mem_sortScoreDesc, List.mem_map] at hmem
      obtain ⟨f, _, rfl⟩ := hmem
      exact min_le_right _ _
    · simp at hp

theorem keyword_answer_branch_head_ge (faqs : List FAQEntry) (words : List String)
    (k : Nat) (b : FAQEntry) (s : ℚ) (r : List (FAQEntry × ℚ))
    (h : keyword_answer_branch faqs words k = (b, s) :: r) : s ≥ 3/10 := by
  simp only [keyword_answer_branch] at h
  split at h
  · exact absurd h (by simp)
  · rename_i b2 s2 rest2 heq
    split at h
    · rename_i hge
      have hhead := take_head_eq _ _ _ _ _ h
      injection hhead with hb hs
      rw [hs]
      exact hge
    · exact absurd h (by simp)

/-- Amended C7: every score the keyword matcher reports is at most 0.85 (the
caps are inclusive, so exactly 0.85 is attainable — the original "never
at least 0.85" fails there); answer-only matches are capped at 0.75; and a
non-empty result is returned only when its best (first) score is at least
0.30. -/
theorem keyword_score_caps :
    (∀ (faqs : List FAQEntry) (query : String) (k : Nat),
      ∀ p ∈ search_faqs_keyword_fallback faqs query k, p.2 ≤ 85/100) ∧
    (∀ (faqs : List FAQEntry) (words : List String) (k : Nat),
      ∀ p ∈ keyword_answer_branch faqs words k, p.2 ≤ 75/100) ∧
    (∀ (faqs : List FAQEntry) (query : String) (k : Nat) (b : FAQEntry) (s : ℚ)
      (r : List (FAQEntry × ℚ)),
      search_faqs_keyword_fallback faqs query k = (b, s) :: r → s ≥ 3/10) := by
  refine ⟨?_, keyword_answer_branch_le, ?_⟩
  · intro faqs query k p hp
    simp only [search_faqs_keyword_fallback] at hp
    split at hp
    · rw [List.mem_map] at hp
      obtain ⟨f, _, rfl⟩ := hp
      norm_num
    · split at hp
      · exact le_trans (keyword_answer_branch_le _ _ _ _ hp) (by norm_num)
      · rename_i b s rest heq
        split at hp
        · have hmem := List.take_subset _ _ hp
          rw [← heq] at hmem
          rw [mem_sortScoreDesc, List.mem_map] at hmem
          obtain ⟨f, _, rfl⟩ := hmem
          dsimp only
          split
          · exact min_le_right _ _
          · exact min_le_right _ _
        · exact le_trans (keyword_answer_branch_le _ _ _ _ hp) (by norm_num)
  · intro faqs query k b s r heq
    simp only [search_faqs_keyword_fallback] at heq
    split at heq
    · have hmem : (b, s) ∈ ((faqs.filter (fun f =>
          occursIn (stripStr (lowerStr query)) (lowerStr f.question))).take k).map
          (fun f => (f, (7/10 : ℚ))) := by
        rw [heq]
        exact List.mem_cons_self _ _
      rw [List.mem_map] at hmem
      obtain ⟨f, _, hf⟩ := hmem
      have hs : s = 7/10 := (Prod.mk.injEq _ _ _ _ ▸ hf).2.symm
      rw [hs]
      norm_num
    · split at heq
      · exact keyword_answer_branch_head_ge _ _ _ _ _ _ heq
      · rename_i b2 s2 rest2 hsort
        split at heq
        · rename_i hge
          have hhead := take_head_eq _ _ _ _ _ heq
          injection hhead with hb hs
          rw [hs]
          exact hge
        · exact keyword_answer_branch_head_ge _ _ _ _ _ _ heq

/-- Concrete keyword-fallback evaluation: full token overlap on both fields
drives the raw score to 1.5, which the cap clamps to exactly 0.85. -/
theorem keyword_fallback_puppy_food_eq :
    search_faqs_keyword_fallback
      [⟨1, "puppy food schedule guide", "puppy food schedule daily", none⟩]
      "puppy food schedule" 3 =
      [(⟨1, "puppy food schedule guide", "puppy food schedule daily", none⟩, 85/100)] := by
  have hwords : meaningful_words (stripStr (lowerStr "puppy food schedule")) =
      ["puppy", "food", "schedule"] := by decide
  have hfilter : [(⟨1, "puppy food schedule guide", "puppy food schedule daily", none⟩ :
      FAQEntry)].filter
      (fun f => (["puppy", "food", "schedule"].take 8).any
        (fun w => occursIn w (lowerStr f.question))) =
      [⟨1, "puppy food schedule guide", "puppy food schedule daily", none⟩] := by decide
  have hqm : (["puppy", "food", "schedule"].filter
      (fun w => occursIn w (lowerStr "puppy food schedule guide"))).length = 3 := by decide
  have ham : (["puppy", "food", "schedule"].filter
      (fun w => occursIn w (lowerStr "puppy food schedule daily"))).length = 3 := by decide
  simp only [search_faqs_keyword_fallback, hwords, hfilter]
  norm_num [sortScoreDesc, insertScoreDesc, min_def, hqm, ham]
  intro hcontr
  exact absurd hcontr (by simp)

/-- Counterexample to claim C7 as stated: a keyword-only match CAN report a
similarity of 0.85 — the cap is inclusive — so "never reports a score at
least 0.85" fails at exactly the cap. -/
theorem keyword_score_reaches_cap :
    search_faqs_keyword_fallback
      [⟨1, "puppy food schedule guide", "puppy food schedule daily", none⟩]
      "puppy food schedule" 3 =
      [(⟨1, "puppy food schedule guide", "puppy food schedule daily", none⟩, 85/100)] ∧
    (85:ℚ)/100 ≥ 85/100 :=
  ⟨keyword_fallback_puppy_food_eq, by norm_num⟩

/-- Witness for the amended C7 at the concrete cap-attaining match. -/
theorem keyword_score_caps_witness :
    (⟨1, "puppy food schedule guide", "puppy food schedule daily", none⟩, (85:ℚ)/100) ∈
      search_faqs_keyword_fallback
        [⟨1, "puppy food schedule guide", "puppy food schedule daily", none⟩]
        "puppy food schedule" 3 ∧
    (85:ℚ)/100 ≤ 85/100 ∧ (85:ℚ)/100 ≥ 3/10 := by
  have hmem : (⟨1, "puppy food schedule guide", "puppy food schedule daily", none⟩,
      (85:ℚ)/100) ∈ search_faqs_keyword_fallback
        [⟨1, "puppy food schedule guide", "puppy food schedule daily", none⟩]
        "puppy food schedule" 3 := by
    rw [keyword_fallback_puppy_food_eq]
    exact List.mem_singleton.mpr rfl
  exact ⟨hmem, keyword_score_caps.1 _ _ _ _ hmem,
    keyword_score_caps.2.2 _ _ _ _ _ _ keyword_fallback_puppy_food_eq⟩
